import Mathlib

/-!
Shallow embedding of the `Mobile_app_backend` FastAPI blogging backend
(`src/app`): data model (`app/models.py`), request/response schemas
(`app/schemas.py`), token and password utilities (`app/security.py`) and the
request handlers (`app/routers/auth.py`, `app/routers/blog.py`).

Modelling conventions:
* The relational store is a `DB` structure holding the three tables as lists;
  `db.exec(select(...).where(...)).first()` becomes `List.find?` and
  `db.get(Model, pk)` becomes a lookup by primary key.
* Timestamps (`datetime.utcnow()`) are natural numbers; each handler that reads
  the clock takes the current time `now : Nat` as an explicit argument, and
  `uuid.uuid4()` becomes an explicit fresh-id argument.
* An encoded JWT (the string produced by `jose.jwt.encode`) is modelled as an
  inductive carrying the signed payload, signing key and algorithm, with one
  extra constructor for strings that are not well-formed tokens at all.
* A raised `HTTPException` becomes the `Except.error` branch; handlers that
  write to the store return the (possibly unchanged) store alongside the
  result, so that "no write happened" is the literal statement that the
  returned store equals the input store.
* `UpsertBlogBody.category` and `BlogResponse.category` are embedded exactly
  as `app/schemas.py` declares them: bare `CategoryEnum` values
  (`use_enum_values` makes the parsed field a plain string).  The blog
  handlers' attribute accesses `body.category.id` / `body.category.name`
  (blog.py) and the construction `BlogResponse(category=CategoryResponse(...))`
  therefore fail at runtime.  An exception no handler catches — the Python
  `AttributeError`, the pydantic `ValidationError` — is the
  `HandlerError.uncaught` result, which the server surfaces as a bare
  HTTP 500; a deliberately raised `fastapi.HTTPException` is
  `HandlerError.http`.
-/

/-- CategoryEnum from `app/schemas.py`: the six allowed category names. -/
inductive CategoryEnum
  | business
  | technology
  | fashion
  | travel
  | food
  | education
deriving Repr, DecidableEq, BEq

/-- User table row (`app/models.py`, class User). -/
structure User where
  id : String
  email : String
  password : String
  full_name : String
  avatar_url : Option String
  created_at : Nat
  updated_at : Nat
deriving Repr, DecidableEq

/-- Category table row (`app/models.py`, class Category). -/
structure Category where
  id : String
  name : CategoryEnum
  created_at : Nat
  updated_at : Nat
deriving Repr, DecidableEq

/-- Blog table row (`app/models.py`, class Blog). -/
structure Blog where
  id : String
  title : String
  content : String
  image_url : String
  creator_id : String
  category_id : String
  created_at : Nat
  updated_at : Nat
deriving Repr, DecidableEq

/-- The relational store: the three tables managed by `app/database.py`. -/
structure DB where
  users : List User
  categories : List Category
  blogs : List Blog
deriving Repr, DecidableEq

/-- Modelled query `db.exec(select(User).where(User.email == email)).first()`. -/
def DB.getUserByEmail (db : DB) (email : String) : Option User :=
  db.users.find? (fun u => u.email == email)

/-- Modelled primary-key lookup `db.get(User, id)`. -/
def DB.getUser (db : DB) (id : String) : Option User :=
  db.users.find? (fun u => u.id == id)

/-- Modelled primary-key lookup `db.get(Category, id)`. -/
def DB.getCategory (db : DB) (id : String) : Option Category :=
  db.categories.find? (fun c => c.id == id)

/-- Modelled query `db.exec(select(Category).where(Category.name == name)).first()`. -/
def DB.getCategoryByName (db : DB) (name : CategoryEnum) : Option Category :=
  db.categories.find? (fun c => c.name == name)

/-- Modelled query `db.exec(select(Blog).where(Blog.id == id)).first()`. -/
def DB.getBlog (db : DB) (id : String) : Option Blog :=
  db.blogs.find? (fun b => b.id == id)

/-- A raised `fastapi.HTTPException`: status code plus human-readable detail. -/
structure HTTPException where
  status_code : Nat
  detail : String
deriving Repr, DecidableEq

/-! ## Configuration (`app/config.py`) -/

/-- Default signing secret from `Settings.SECRET_KEY`. -/
def SECRET_KEY : String := "your-secret-key-change-in-production-use-env-variable"

/-- Default signing algorithm from `Settings.ALGORITHM`. -/
def ALGORITHM : String := "HS256"

/-- Default token lifetime in minutes from `Settings.ACCESS_TOKEN_EXPIRE_MINUTES`. -/
def ACCESS_TOKEN_EXPIRE_MINUTES : Nat := 30

/-! ## JWT model (`jose.jwt` as used by `app/security.py`) -/

/-- A JSON claim value as stored in a token payload (only strings and numbers
occur in this backend: `sub` is a user-id string, `exp` a numeric time). -/
inductive JValue
  | str (s : String)
  | num (n : Nat)
deriving Repr, DecidableEq

/-- Python dict update `d[k] = v`: overwrite the binding if the key is present,
otherwise append it. -/
def dictSet (d : List (String × JValue)) (k : String) (v : JValue) :
    List (String × JValue) :=
  if d.any (fun p => p.1 == k) then
    d.map (fun p => if p.1 == k then (k, v) else p)
  else
    d ++ [(k, v)]

/-- Python `d.get(k)` on a payload dict. -/
def dictGet (d : List (String × JValue)) (k : String) : Option JValue :=
  (d.find? (fun p => p.1 == k)).map Prod.snd

/-- The encoded token string produced by `jose.jwt.encode`, modelled by what it
determines: the signed payload, the signing key and the algorithm.  The
`malformed` constructor stands for every presented string that is not a
well-formed JWT at all. -/
inductive JWT
  | signed (payload : List (String × JValue)) (key : String) (alg : String)
  | malformed
deriving Repr, DecidableEq

/-- The error classes raised by `jose.jwt.decode`; all are subclasses of
`jose.JWTError`. -/
inductive JWTError
  | invalidSignature
  | malformedToken
  | expiredSignature
deriving Repr, DecidableEq

/-- Modelled `jose.jwt.encode(payload, key, algorithm)`. -/
def jwt_encode (payload : List (String × JValue)) (key : String) (alg : String) :
    JWT :=
  .signed payload key alg

/-- Modelled `jose.jwt.decode(token, key, algorithms)` at current time `now`:
rejects malformed tokens, signature/key or algorithm mismatches, and payloads
whose `exp` claim lies in the past. -/
def jwt_decode (t : JWT) (key : String) (algs : List String) (now : Nat) :
    Except JWTError (List (String × JValue)) :=
  match t with
  | .malformed => .error .malformedToken
  | .signed payload k alg =>
    if k ≠ key then .error .invalidSignature
    else if ¬ alg ∈ algs then .error .invalidSignature
    else
      match dictGet payload "exp" with
      | some (.num e) => if e < now then .error .expiredSignature else .ok payload
      | some (.str _) => .error .malformedToken
      | none => .ok payload

/-! ## Security utilities (`app/security.py`) -/

/-- A Python runtime value passed to `get_password_hash` (which checks
`isinstance(password, str)` dynamically). -/
inductive PyValue
  | pyStr (s : String)
  | pyInt (n : Int)
  | pyBool (b : Bool)
  | pyNone
deriving Repr, DecidableEq

/-- Python `str(type(v))`, as interpolated into the `ValueError` message. -/
def pyTypeName (v : PyValue) : String :=
  match v with
  | .pyStr _ => "<class 'str'>"
  | .pyInt _ => "<class 'int'>"
  | .pyBool _ => "<class 'bool'>"
  | .pyNone => "<class 'NoneType'>"

/-- Model of the external `passlib` `CryptContext.hash` with the
`bcrypt_sha256` scheme: a total function on strings producing a self-describing
hash string (the real salted digest is abstracted; what matters here is that it
accepts every string without raising). -/
def pwd_context_hash (s : String) : String :=
  "$bcrypt-sha256$v=2,t=2b,r=12$" ++ s

/-- `get_password_hash` from `app/security.py`: raises `ValueError` (modelled
as `Except.error` carrying the message) when the input is not a string or is
the empty string, otherwise hashes via the password context. -/
def get_password_hash (password : PyValue) : Except String String :=
  match password with
  | .pyStr s =>
    if s = "" then .error "Password không được rỗng"
    else .ok (pwd_context_hash s)
  | v => .error ("Password phải là string, nhận được: " ++ pyTypeName v)

/-- `create_access_token` from `app/security.py`: copies the data dict, sets the
`exp` claim to `now` plus the requested lifetime (default
`ACCESS_TOKEN_EXPIRE_MINUTES`, in seconds here), and signs with the configured
secret and algorithm. -/
def create_access_token (data : List (String × JValue))
    (expires_delta : Option Nat) (now : Nat) : JWT :=
  let expire :=
    match expires_delta with
    | some d => now + d
    | none => now + ACCESS_TOKEN_EXPIRE_MINUTES * 60
  jwt_encode (dictSet data "exp" (.num expire)) SECRET_KEY ALGORITHM

/-- `decode_access_token` from `app/security.py`: decodes with the configured
secret and algorithm, and catches every `JWTError`, returning `none`. -/
def decode_access_token (t : JWT) (now : Nat) : Option (List (String × JValue)) :=
  match jwt_decode t SECRET_KEY [ALGORITHM] now with
  | .ok payload => some payload
  | .error _ => none

/-- `get_current_user` from `app/security.py`: decode the bearer token, read the
`sub` claim, and look the user up; every failure is a 401. A numeric `sub`
claim is a key that matches no string primary key, so its lookup fails. -/
def get_current_user (t : JWT) (db : DB) (now : Nat) : Except HTTPException User :=
  match decode_access_token t now with
  | none => .error ⟨401, "Token không hợp lệ hoặc đã hết hạn."⟩
  | some payload =>
    match dictGet payload "sub" with
    | none => .error ⟨401, "Token không hợp lệ."⟩
    | some (.num _) => .error ⟨401, "Người dùng không tồn tại."⟩
    | some (.str user_id) =>
      match db.getUser user_id with
      | none => .error ⟨401, "Người dùng không tồn tại."⟩
      | some user => .ok user

/-! ## Auth schemas and handlers (`app/schemas.py`, `app/routers/auth.py`) -/

/-- Request body of POST `/api/auth/login`. -/
structure LoginUserBody where
  email : String
  password : String
deriving Repr, DecidableEq

/-- Request body of POST `/api/auth/register`. -/
structure RegisterUserBody where
  email : String
  password : String
  confirmation_password : String
  full_name : String
deriving Repr, DecidableEq

/-- `LoginUserResponse` from `app/schemas.py`. -/
structure LoginUserResponse where
  id : String
  token : JWT
deriving Repr, DecidableEq

/-- The `{success, message, result}` envelope of a successful login. -/
structure LoginEnvelope where
  success : Bool
  message : String
  result : LoginUserResponse
deriving Repr, DecidableEq

/-- The `{success, message, result: {user_id}}` envelope of a successful
registration. -/
structure RegisterEnvelope where
  success : Bool
  message : String
  user_id : String
deriving Repr, DecidableEq

/-- Python `email.split('@')[0]`: the part of the email before the first `@`
(the whole string when no `@` occurs, the empty string when the email starts
with `@`). -/
def emailLocalPart (email : String) : String :=
  String.mk (email.toList.takeWhile (fun c => c ≠ '@'))

/-- The `login` handler (`app/routers/auth.py`): fetch the user by email,
compare the password (plain-text comparison, as the source does), and on
success issue a token whose data dict is `{"sub": user.id}`.  The `Nat`
component of the result is the route's declared status code (200). -/
def login (body : LoginUserBody) (db : DB) (now : Nat) :
    Except HTTPException (Nat × LoginEnvelope) :=
  match db.getUserByEmail body.email with
  | none => .error ⟨401, "Email hoặc mật khẩu không đúng."⟩
  | some user =>
    if body.password ≠ user.password then
      .error ⟨401, "Email hoặc mật khẩu không đúng."⟩
    else
      let access_token := create_access_token [("sub", .str user.id)] none now
      .ok (200, ⟨true, "Đăng nhập thành công.", ⟨user.id, access_token⟩⟩)

/-- The `register` handler (`app/routers/auth.py`): reject a confirmation
mismatch with 400, a duplicate email with 409; otherwise insert a new `User`
whose id is `"user_" ++` the email local-part and answer 201 with that id.
The returned `DB` is the store after the request (unchanged on every error
path: the exception is raised before any `db.add`/`db.commit`). -/
def register (body : RegisterUserBody) (db : DB) (now : Nat) :
    Except HTTPException (Nat × RegisterEnvelope) × DB :=
  if body.password ≠ body.confirmation_password then
    (.error ⟨400, "Mật khẩu xác nhận không khớp."⟩, db)
  else
    match db.getUserByEmail body.email with
    | some _ => (.error ⟨409, "Email đã được đăng ký."⟩, db)
    | none =>
      let new_user : User :=
        { id := "user_" ++ emailLocalPart body.email
          email := body.email
          password := body.password
          full_name := body.full_name
          avatar_url := none
          created_at := now
          updated_at := now }
      let db2 : DB := { db with users := db.users ++ [new_user] }
      (.ok (201, ⟨true, "Đăng ký thành công.", new_user.id⟩), db2)

/-! ## Blog schemas and handlers (`app/schemas.py`, `app/routers/blog.py`) -/

/-- Request body of POST `/api/blogs` and PUT `/api/blogs/{id}`
(`UpsertBlogBody`, `app/schemas.py` lines 66-77): `category` is a bare
required `CategoryEnum`; with `use_enum_values = True` the parsed value is the
plain enum string.  A JSON body whose category is an `{id, name}` object is
rejected by validation (422) and never reaches a handler. -/
structure UpsertBlogBody where
  title : String
  content : String
  image_url : String
  category : CategoryEnum
deriving Repr, DecidableEq

/-- A Python exception that no handler catches; the server surfaces it as a
bare HTTP 500 Internal Server Error. -/
inductive PyError
  | attributeError (msg : String)
  | validationError (msg : String)
deriving Repr, DecidableEq

/-- Outcome of a failing blog-handler request: a deliberately raised
`HTTPException`, or an uncaught Python exception. -/
inductive HandlerError
  | http (e : HTTPException)
  | uncaught (e : PyError)
deriving Repr, DecidableEq

/-- The message of the `AttributeError` raised by `body.category.id` when
`body.category` is the plain enum string. -/
def categoryAttributeErrorMsg : String := "'str' object has no attribute 'id'"

/-- The message of the pydantic `ValidationError` raised by constructing
`BlogResponse(category=CategoryResponse(...))` against the declared
`category: CategoryEnum` field (exact wording is pydantic-version dependent;
only the error class matters here). -/
def blogResponseValidationMsg : String :=
  "1 validation error for BlogResponse: category is not a valid CategoryEnum"

/-- `UserResponse` from `app/schemas.py` (`avatar_url` defaults to `None`,
`following`/`follower` to 0 when a handler does not pass them). -/
structure UserResponse where
  id : String
  full_name : String
  email : String
  avatar_url : Option String := none
  following : Nat := 0
  follower : Nat := 0
deriving Repr, DecidableEq

/-- `CategoryResponse` from `app/schemas.py`. -/
structure CategoryResponse where
  id : String
  name : CategoryEnum
deriving Repr, DecidableEq

/-- `BlogResponse` as `app/schemas.py` (line 117) declares it: `category` is a
bare `CategoryEnum`.  The listing handler tries to construct it with a
`CategoryResponse` object instead, which pydantic rejects — so no instance is
ever built from a row in the frozen source. -/
structure BlogResponse where
  id : String
  title : String
  content : String
  image_url : String
  category : CategoryEnum
  created_at : Nat
  updated_at : Nat
  creator : UserResponse
deriving Repr, DecidableEq

/-- Envelope of GET `/api/blogs` (`BaseResponse[List[BlogResponse]]`). -/
structure BlogListEnvelope where
  success : Bool
  message : String
  result : List BlogResponse
deriving Repr, DecidableEq

/-- Envelope of POST/PUT `/api/blogs` (`BaseResponse[BlogResponse]`). -/
structure BlogDetailEnvelope where
  success : Bool
  message : String
  result : BlogResponse
deriving Repr, DecidableEq

/-- Envelope of GET `/api/users/{id}/profiles` (`BaseResponse[UserResponse]`). -/
structure UserDetailEnvelope where
  success : Bool
  message : String
  result : UserResponse
deriving Repr, DecidableEq

/-- The creator response the `get_blogs` loop builds (blog.py lines 71-77),
with the fixed placeholder counts `following=15`, `follower=80`.  This
construction is valid against the `UserResponse` schema and succeeds. -/
def loopCreatorResponse (creator : User) : UserResponse :=
  { id := creator.id
    full_name := creator.full_name
    email := creator.email
    following := 15
    follower := 80 }

/-- The category response the `get_blogs` loop builds (blog.py lines 80-83);
this construction is valid against the `CategoryResponse` schema and
succeeds. -/
def loopCategoryResponse (category : Category) : CategoryResponse :=
  ⟨category.id, category.name⟩

/-- Row-to-response conversion inside `get_blogs`: the eager-loaded
`blog.creator` / `blog.category` relationships are the rows the foreign keys
reference; a dangling reference raises a 500 (`InternalError`), as the
handler's `if not blog.creator` / `if not blog.category` branches do.  With
both references resolved, the loop builds `creator_response` and
`category_response` successfully, then constructs
`BlogResponse(category=category_response, ...)` — invalid for the declared
`category: CategoryEnum` field — so every row raises the uncaught pydantic
`ValidationError`: no row is ever converted successfully. -/
def blogToResponse (db : DB) (blog : Blog) : Except HandlerError BlogResponse :=
  match db.getUser blog.creator_id with
  | none =>
    .error (.http ⟨500, "Không tìm thấy thông tin tác giả cho blog " ++ blog.id⟩)
  | some creator =>
    match db.getCategory blog.category_id with
    | none =>
      .error (.http ⟨500, "Không tìm thấy thông tin danh mục cho blog " ++ blog.id⟩)
    | some category =>
      let _creator_response : UserResponse := loopCreatorResponse creator
      let _category_response : CategoryResponse := loopCategoryResponse category
      .error (.uncaught (.validationError blogResponseValidationMsg))

/-- The `ORDER BY created_at DESC` ordering on blog rows. -/
def blogDesc (a b : Blog) : Prop := b.created_at ≤ a.created_at

instance : DecidableRel blogDesc :=
  fun a b => inferInstanceAs (Decidable (b.created_at ≤ a.created_at))

instance : IsTotal Blog blogDesc :=
  ⟨fun a b => Nat.le_total b.created_at a.created_at⟩

instance : IsTrans Blog blogDesc :=
  ⟨fun _ _ _ hab hbc => Nat.le_trans hbc hab⟩

/-- The `order_by(Blog.created_at.desc())` result: the blog table sorted by
`created_at` descending (the relative order of rows with equal timestamps is
unspecified by SQL; a concrete stable sort stands in for it). -/
def sortedBlogs (db : DB) : List Blog :=
  db.blogs.insertionSort blogDesc

/-- The row-conversion loop of `get_blogs`: convert each selected row in order,
aborting with the first raised or uncaught error. -/
def blogsToResponses (db : DB) : List Blog → Except HandlerError (List BlogResponse)
  | [] => .ok []
  | b :: rest =>
    match blogToResponse db b with
    | .error e => .error e
    | .ok r =>
      match blogsToResponses db rest with
      | .error e => .error e
      | .ok rs => .ok (r :: rs)

/-- The `get_blogs` handler (`app/routers/blog.py`): offset `(page-1)*limit`
into the descending-`created_at` ordering, take `limit` rows, convert each
row.  Since every row conversion fails (see `blogToResponse`), the request
succeeds — with status 200 and an empty result — exactly when the selected
window is empty.  The authenticated caller is required by the route but not
used by the handler body. -/
def get_blogs (limit page : Nat) (db : DB) (current_user : User) :
    Except HandlerError (Nat × BlogListEnvelope) :=
  let _ := current_user
  let offset := (page - 1) * limit
  let blogs_model := ((sortedBlogs db).drop offset).take limit
  match blogsToResponses db blogs_model with
  | .error e => .error e
  | .ok blogs_response =>
    .ok (200,
      ⟨true,
        "Lấy thành công " ++ toString blogs_response.length ++ " bài blog.",
        blogs_response⟩)

/-- The `get_user_by_id` handler (`app/routers/blog.py`): 404 when the id
matches no user, otherwise the profile with the fixed placeholder counts
`following=15`, `follower=80`. -/
def get_user_by_id (id : String) (db : DB) (current_user : User) :
    Except HTTPException (Nat × UserDetailEnvelope) :=
  let _ := current_user
  match db.getUser id with
  | none => .error ⟨404, "Người dùng không tồn tại."⟩
  | some user_model =>
    .ok (200,
      ⟨true, "Lấy thông tin người dùng thành công.",
        { id := user_model.id
          full_name := user_model.full_name
          email := user_model.email
          avatar_url := user_model.avatar_url
          following := 15
          follower := 80 }⟩)

/-- The `create_blog` handler (`app/routers/blog.py`): its first executed
statement is the guard `if body.category.id and body.category.id.strip():`
(line 164) — but `body.category` is the plain enum string, which has no `id`
attribute, so every parsed request raises the uncaught `AttributeError`
before any category lookup, any insert, or the 404/201 paths that follow in
the handler's text.  The store is returned unchanged; `new_id` is the
`uuid.uuid4()` value the dead code would have used. -/
def create_blog (body : UpsertBlogBody) (db : DB) (current_user : User)
    (new_id : String) (now : Nat) :
    Except HandlerError (Nat × BlogDetailEnvelope) × DB :=
  (.error (.uncaught (.attributeError categoryAttributeErrorMsg)), db)

/-- The `update_blog` handler (`app/routers/blog.py`): 404 when the blog id
matches no row; 403 when the authenticated caller is not the creator; then
the category guard `if body.category.id and body.category.id.strip():`
(line 270) raises the uncaught `AttributeError` on the plain enum string —
so the category resolution, the field overwrites, the `updated_at` refresh
and the 200 response in the rest of the handler's text are never reached,
and the store is returned unchanged on every path. -/
def update_blog (id : String) (body : UpsertBlogBody) (db : DB)
    (current_user : User) (now : Nat) :
    Except HandlerError (Nat × BlogDetailEnvelope) × DB :=
  match db.getBlog id with
  | none => (.error (.http ⟨404, "Blog không tồn tại."⟩), db)
  | some blog =>
    if blog.creator_id ≠ current_user.id then
      (.error (.http ⟨403, "Bạn không có quyền cập nhật blog này."⟩), db)
    else
      (.error (.uncaught (.attributeError categoryAttributeErrorMsg)), db)

/-! ## Shared concrete sample world, used to instantiate theorems -/

/-- Sample user row. -/
def sampleAlice : User := ⟨"user_alice", "alice@x.com", "pw1", "Alice", none, 1, 1⟩

/-- Sample user row, distinct from `sampleAlice`. -/
def sampleBob : User := ⟨"user_bob", "bob@x.com", "pw2", "Bob", none, 2, 2⟩

/-- Sample category row. -/
def sampleCat1 : Category := ⟨"cat-1", .business, 0, 0⟩

/-- Sample category row, distinct from `sampleCat1`. -/
def sampleCat2 : Category := ⟨"cat-2", .travel, 0, 0⟩

/-- Sample blog row created by `sampleAlice` in `sampleCat1`. -/
def sampleBlog1 : Blog := ⟨"b1", "t1", "c1", "i1", "user_alice", "cat-1", 10, 10⟩

/-- Sample blog row created by `sampleAlice` in `sampleCat1`. -/
def sampleBlog2 : Blog := ⟨"b2", "t2", "c2", "i2", "user_alice", "cat-1", 20, 20⟩

/-- Sample blog row created by `sampleBob` in `sampleCat2`. -/
def sampleBlog3 : Blog := ⟨"b3", "t3", "c3", "i3", "user_bob", "cat-2", 30, 30⟩

/-- Sample store holding the rows above. -/
def sampleDB : DB :=
  ⟨[sampleAlice, sampleBob], [sampleCat1, sampleCat2],
    [sampleBlog1, sampleBlog2, sampleBlog3]⟩

/-! ## Claim theorems -/

/-- The `sub` claim embedded in an encoded token, when it is a string. -/
def tokenSubject (t : JWT) : Option String :=
  match t with
  | .signed payload _ _ =>
    match dictGet payload "sub" with
    | some (.str s) => some s
    | _ => none
  | .malformed => none

/-- C2: a login request fails with 401 Unauthorized when no user has the given
email or when the given password differs from the stored one; otherwise it
answers 200 with the `{success, message, result:{id, token}}` envelope where
`id` is the user's id and the issued token carries that id as its `sub`
claim. -/
theorem login_unauthorized_or_token_for_user
    (body : LoginUserBody) (db : DB) (now : Nat) :
    (db.getUserByEmail body.email = none →
      login body db now = .error ⟨401, "Email hoặc mật khẩu không đúng."⟩) ∧
    (∀ user, db.getUserByEmail body.email = some user →
      body.password ≠ user.password →
      login body db now = .error ⟨401, "Email hoặc mật khẩu không đúng."⟩) ∧
    (∀ user, db.getUserByEmail body.email = some user →
      body.password = user.password →
      login body db now =
        .ok (200, ⟨true, "Đăng nhập thành công.",
          ⟨user.id, create_access_token [("sub", .str user.id)] none now⟩⟩) ∧
      tokenSubject (create_access_token [("sub", .str user.id)] none now) =
        some user.id) := by
  refine ⟨fun h => ?_, fun user h hne => ?_, fun user h heq => ⟨?_, rfl⟩⟩
  · simp [login, h]
  · simp [login, h, hne]
  · simp [login, h, heq]

/-- C2 witness: a concrete successful login and a concrete rejection. -/
theorem login_unauthorized_or_token_for_user_witness :
    login ⟨"alice@x.com", "pw1"⟩ sampleDB 100 =
      .ok (200, ⟨true, "Đăng nhập thành công.",
        ⟨"user_alice", create_access_token [("sub", .str "user_alice")] none 100⟩⟩) ∧
    tokenSubject (create_access_token [("sub", .str "user_alice")] none 100) =
      some "user_alice" ∧
    login ⟨"alice@x.com", "bad"⟩ sampleDB 100 =
      .error ⟨401, "Email hoặc mật khẩu không đúng."⟩ := by
  obtain ⟨h1, h2⟩ :=
    (login_unauthorized_or_token_for_user ⟨"alice@x.com", "pw1"⟩ sampleDB 100).2.2
      sampleAlice (by decide) (by decide)
  have h3 :=
    (login_unauthorized_or_token_for_user ⟨"alice@x.com", "bad"⟩ sampleDB 100).2.1
      sampleAlice (by decide) (by decide)
  exact ⟨by simpa [sampleAlice] using h1, by simpa [sampleAlice] using h2, h3⟩

/-- C3: a registration whose password differs from its confirmation fails with
400 BadRequest and leaves the user store unchanged (the exception is raised
before any write); a registration whose email is already present fails with
409 Conflict, also leaving the store unchanged. -/
theorem register_rejects_mismatch_and_duplicate
    (body : RegisterUserBody) (db : DB) (now : Nat) :
    (body.password ≠ body.confirmation_password →
      register body db now = (.error ⟨400, "Mật khẩu xác nhận không khớp."⟩, db)) ∧
    (∀ u, body.password = body.confirmation_password →
      db.getUserByEmail body.email = some u →
      register body db now = (.error ⟨409, "Email đã được đăng ký."⟩, db)) := by
  refine ⟨fun hne => ?_, fun u heq hdup => ?_⟩
  · simp [register, hne]
  · simp [register, heq, hdup]

/-- C3 witness: a concrete mismatch and a concrete duplicate, both leaving the
sample store untouched. -/
theorem register_rejects_mismatch_and_duplicate_witness :
    register ⟨"new@x.com", "p1", "p2", "New"⟩ sampleDB 50 =
      (.error ⟨400, "Mật khẩu xác nhận không khớp."⟩, sampleDB) ∧
    register ⟨"alice@x.com", "p", "p", "Alice Again"⟩ sampleDB 50 =
      (.error ⟨409, "Email đã được đăng ký."⟩, sampleDB) := by
  refine ⟨(register_rejects_mismatch_and_duplicate _ sampleDB 50).1 (by decide),
    (register_rejects_mismatch_and_duplicate _ sampleDB 50).2 sampleAlice
      (by decide) (by decide)⟩

/-- C8: a successful registration answers 201 and creates exactly one user
whose id is the string `user_` followed by the email's local-part (the part
before the first `@`), and the returned `user_id` is that id; two emails with
the same local-part therefore derive the same id (the scheme is deterministic
and not collision-safe). -/
theorem register_id_is_email_local_part
    (body : RegisterUserBody) (db : DB) (now : Nat) :
    (∀ st env db2, register body db now = (.ok (st, env), db2) →
      st = 201 ∧
      env.user_id = "user_" ++ emailLocalPart body.email ∧
      ∃ u, db2.users = db.users ++ [u] ∧
        u.id = "user_" ++ emailLocalPart body.email) ∧
    (∀ email2 : String, emailLocalPart email2 = emailLocalPart body.email →
      "user_" ++ emailLocalPart email2 = "user_" ++ emailLocalPart body.email) := by
  constructor
  · intro st env db2 h
    by_cases hp : body.password ≠ body.confirmation_password
    · simp [register, hp] at h
    · rw [register, if_neg hp] at h
      cases hu : db.getUserByEmail body.email with
      | some u => rw [hu] at h; simp at h
      | none =>
        rw [hu] at h
        simp only [Prod.mk.injEq, Except.ok.injEq] at h
        obtain ⟨⟨hst, henv⟩, hdb⟩ := h
        refine ⟨hst.symm, ?_, ?_⟩
        · rw [← henv]
        · exact ⟨⟨"user_" ++ emailLocalPart body.email, body.email, body.password,
            body.full_name, none, now, now⟩, by rw [← hdb], rfl⟩
  · intro email2 h
    rw [h]

/-- C8 witness: registering `carol@y.com` creates `user_carol` and answers 201
with that id. -/
theorem register_id_is_email_local_part_witness :
    ((201 : Nat) = 201 ∧
      (RegisterEnvelope.mk true "Đăng ký thành công." "user_carol").user_id =
        "user_" ++ emailLocalPart "carol@y.com" ∧
      ∃ u, (register ⟨"carol@y.com", "p", "p", "Carol"⟩ sampleDB 50).2.users =
          sampleDB.users ++ [u] ∧
        u.id = "user_" ++ emailLocalPart "carol@y.com") := by
  exact (register_id_is_email_local_part ⟨"carol@y.com", "p", "p", "Carol"⟩
    sampleDB 50).1 201 ⟨true, "Đăng ký thành công.", "user_carol"⟩ _ rfl

/-- C9: the hash operation of the credential hasher fails with a `ValueError`
for the empty string and for every non-string input, and returns the password
context's hash, without raising, for every non-empty string. -/
theorem get_password_hash_validation :
    (∀ v : PyValue, (∀ s, v ≠ .pyStr s) →
      get_password_hash v =
        .error ("Password phải là string, nhận được: " ++ pyTypeName v)) ∧
    (get_password_hash (.pyStr "") = .error "Password không được rỗng") ∧
    (∀ s : String, s ≠ "" → get_password_hash (.pyStr s) = .ok (pwd_context_hash s)) := by
  refine ⟨fun v hv => ?_, rfl, fun s hs => ?_⟩
  · cases v with
    | pyStr s => exact absurd rfl (hv s)
    | pyInt n => rfl
    | pyBool b => rfl
    | pyNone => rfl
  · simp [get_password_hash, hs]

/-- C9 witness: a concrete non-empty string hashes successfully; a concrete
non-string input is rejected. -/
theorem get_password_hash_validation_witness :
    get_password_hash (.pyStr "abc") = .ok (pwd_context_hash "abc") ∧
    get_password_hash .pyNone =
      .error ("Password phải là string, nhận được: " ++ pyTypeName .pyNone) := by
  exact ⟨get_password_hash_validation.2.2 "abc" (by decide),
    get_password_hash_validation.1 .pyNone (fun s => by simp)⟩

/-- C6: every decode failure — malformed token, bad signature/key, wrong
algorithm, or expiry in the past — is caught by `decode_access_token`
(returning `none`) and mapped by the authentication dependency to the single
401 `InvalidToken` response; and every failure of the verification dependency,
of any origin, carries status 401 and no other status. -/
theorem token_verification_normalizes_errors (t : JWT) (db : DB) (now : Nat) :
    (∀ e, jwt_decode t SECRET_KEY [ALGORITHM] now = .error e →
      decode_access_token t now = none ∧
      get_current_user t db now =
        .error ⟨401, "Token không hợp lệ hoặc đã hết hạn."⟩) ∧
    (∀ exc, get_current_user t db now = .error exc → exc.status_code = 401) := by
  constructor
  · intro e he
    have hd : decode_access_token t now = none := by
      simp [decode_access_token, he]
    exact ⟨hd, by simp [get_current_user, hd]⟩
  · intro exc h
    rw [get_current_user] at h
    repeat' split at h
    all_goals first
      | (injection h with h2; rw [← h2])
      | exact Except.noConfusion h

/-- C6 witness: a malformed token, a token signed with the wrong key, and an
expired token are all rejected with the same 401; concretely instantiated. -/
theorem token_verification_normalizes_errors_witness :
    (decode_access_token .malformed 100 = none ∧
      get_current_user .malformed sampleDB 100 =
        .error ⟨401, "Token không hợp lệ hoặc đã hết hạn."⟩) ∧
    (decode_access_token (.signed [("sub", .str "user_alice")] "other-key" "HS256") 100 = none ∧
      get_current_user (.signed [("sub", .str "user_alice")] "other-key" "HS256") sampleDB 100 =
        .error ⟨401, "Token không hợp lệ hoặc đã hết hạn."⟩) ∧
    (decode_access_token (.signed [("sub", .str "user_alice"), ("exp", .num 5)] SECRET_KEY "HS256") 100 = none ∧
      get_current_user (.signed [("sub", .str "user_alice"), ("exp", .num 5)] SECRET_KEY "HS256") sampleDB 100 =
        .error ⟨401, "Token không hợp lệ hoặc đã hết hạn."⟩) := by
  refine ⟨(token_verification_normalizes_errors .malformed sampleDB 100).1
      .malformedToken rfl,
    (token_verification_normalizes_errors _ sampleDB 100).1 .invalidSignature rfl,
    (token_verification_normalizes_errors _ sampleDB 100).1 .expiredSignature rfl⟩


/-- Placeholder user response, used only as a `getD` default when a witness
extracts a concrete handler result. -/
def emptyUserResponse : UserResponse := ⟨"", "", "", none, 0, 0⟩

/-- The concrete envelope returned by the sample profile lookup. -/
def sampleProfileEnv : UserDetailEnvelope :=
  ((get_user_by_id "user_alice" sampleDB sampleBob).toOption.getD
    (0, ⟨false, "", emptyUserResponse⟩)).2

/-- No blog row is ever converted to a response: with a dangling reference the
loop raises its 500, and with both references resolved the `BlogResponse`
construction raises the pydantic `ValidationError`. -/
theorem blogToResponse_not_ok (db : DB) (b : Blog) :
    ∀ r, blogToResponse db b ≠ .ok r := by
  intro r h
  simp only [blogToResponse] at h
  repeat' split at h
  all_goals exact Except.noConfusion h

/-- The row-conversion loop succeeds only on the empty row list, with the
empty result. -/
theorem blogsToResponses_ok_nil (db : DB) :
    ∀ xs ys, blogsToResponses db xs = .ok ys → ys = [] := by
  intro xs
  cases xs with
  | nil =>
    intro ys h
    rw [blogsToResponses] at h
    injection h with h2
    exact h2.symm
  | cons b rest =>
    intro ys h
    rw [blogsToResponses] at h
    cases hb : blogToResponse db b with
    | error e => rw [hb] at h; exact Except.noConfusion h
    | ok r => exact absurd hb (blogToResponse_not_ok db b r)

/-- C1: the claim says `create_blog` resolves the category by id first, falls
back to a lookup by name, and fails with 404 NotFound when neither resolves —
in particular for a non-existent id with a non-existent name.  In the frozen
source that logic is unreachable: the request schema makes `body.category` a
bare enum string, so the handler's first statement `body.category.id` raises
an uncaught `AttributeError`, and every parsed create request — whatever its
category — ends in the bare HTTP 500, never in the id/name resolution or its
404, with the store unchanged. -/
theorem create_blog_always_attribute_error
    (body : UpsertBlogBody) (db : DB) (u : User) (nid : String) (now : Nat) :
    create_blog body db u nid now =
      (.error (.uncaught (.attributeError categoryAttributeErrorMsg)), db) := rfl

/-- C5: of the claim's three clauses, the 404 for a missing blog id and the
403 for a non-creator hold, and the 403 is decided before the category is
ever touched (it holds for every request body); the success clause does not
hold: an authorized update crashes with the uncaught `AttributeError` at
`body.category.id` immediately after the ownership check, so no update ever
succeeds, overwrites the mutable fields, or refreshes `updated_at` — the
store is returned unchanged on all three paths. -/
theorem update_blog_checks_then_crash
    (id : String) (body : UpsertBlogBody) (db : DB) (u : User) (now : Nat) :
    (db.getBlog id = none →
      update_blog id body db u now =
        (.error (.http ⟨404, "Blog không tồn tại."⟩), db)) ∧
    (∀ b, db.getBlog id = some b → b.creator_id ≠ u.id →
      update_blog id body db u now =
        (.error (.http ⟨403, "Bạn không có quyền cập nhật blog này."⟩), db)) ∧
    (∀ b, db.getBlog id = some b → b.creator_id = u.id →
      update_blog id body db u now =
        (.error (.uncaught (.attributeError categoryAttributeErrorMsg)), db)) := by
  refine ⟨fun h => ?_, fun b h hne => ?_, fun b h hown => ?_⟩
  · simp [update_blog, h]
  · simp [update_blog, h, hne]
  · simp [update_blog, h, hown]

/-- C5 witness: a missing blog id gives the 404; Bob updating Alice's blog
gives the 403; Alice's own authorized update gives the uncaught
`AttributeError`, not a success — each leaving the sample store untouched. -/
theorem update_blog_checks_then_crash_witness :
    update_blog "no-blog" ⟨"T2", "C2", "I2", .travel⟩ sampleDB sampleAlice 99 =
      (.error (.http ⟨404, "Blog không tồn tại."⟩), sampleDB) ∧
    update_blog "b1" ⟨"T2", "C2", "I2", .travel⟩ sampleDB sampleBob 99 =
      (.error (.http ⟨403, "Bạn không có quyền cập nhật blog này."⟩), sampleDB) ∧
    update_blog "b1" ⟨"T2", "C2", "I2", .travel⟩ sampleDB sampleAlice 99 =
      (.error (.uncaught (.attributeError categoryAttributeErrorMsg)), sampleDB) := by
  exact ⟨(update_blog_checks_then_crash "no-blog" ⟨"T2", "C2", "I2", .travel⟩
      sampleDB sampleAlice 99).1 (by decide),
    (update_blog_checks_then_crash "b1" ⟨"T2", "C2", "I2", .travel⟩
      sampleDB sampleBob 99).2.1 sampleBlog1 (by decide) (by decide),
    (update_blog_checks_then_crash "b1" ⟨"T2", "C2", "I2", .travel⟩
      sampleDB sampleAlice 99).2.2 sampleBlog1 (by decide) (by decide)⟩

/-- C10: the claim describes the frame of a successful update — id,
creator_id and created_at unchanged, only the five mutable fields written.
In the frozen source no update ever reaches the mutation step: every path
fails (404, 403, or the uncaught `AttributeError` before any write), so the
handler returns the store — and with it every field of every Blog row —
entirely unchanged. -/
theorem update_blog_never_mutates
    (id : String) (body : UpsertBlogBody) (db : DB) (u : User) (now : Nat) :
    (update_blog id body db u now).2 = db := by
  cases h : db.getBlog id with
  | none => simp [update_blog, h]
  | some b =>
    by_cases hown : b.creator_id ≠ u.id
    · simp [update_blog, h, hown]
    · simp [update_blog, h, hown]

/-- C7: in every successful response that embeds a user — blog listing, user
profile lookup, blog creation — the embedded following/follower counts are
the fixed placeholder constants 15 and 80, whatever the store contains.  In
the frozen source only the profile conjunct is reachable with an embedded
user: a successful listing is necessarily empty (every selected row crashes
the response construction) and a creation never succeeds, so those two
conjuncts hold vacuously; the final conjunct pins the constants the listing
loop actually writes into the creator response it builds before the
construction crashes. -/
theorem embedded_user_counts_are_placeholders (db : DB) :
    (∀ limit page u st env, get_blogs limit page db u = .ok (st, env) →
      ∀ r ∈ env.result, r.creator.following = 15 ∧ r.creator.follower = 80) ∧
    (∀ id u st env, get_user_by_id id db u = .ok (st, env) →
      env.result.following = 15 ∧ env.result.follower = 80) ∧
    (∀ body u nid now st env, (create_blog body db u nid now).1 = .ok (st, env) →
      env.result.creator.following = 15 ∧ env.result.creator.follower = 80) ∧
    (∀ creator : User, (loopCreatorResponse creator).following = 15 ∧
      (loopCreatorResponse creator).follower = 80) := by
  refine ⟨fun limit page u st env h r hr => ?_, fun id u st env h => ?_,
    fun body u nid now st env h => ?_, fun creator => ⟨rfl, rfl⟩⟩
  · simp only [get_blogs] at h
    cases hm : blogsToResponses db
        (((sortedBlogs db).drop ((page - 1) * limit)).take limit) with
    | error e => rw [hm] at h; exact Except.noConfusion h
    | ok ys =>
      rw [hm] at h
      injection h with h2
      obtain ⟨hst, henv⟩ := Prod.mk.inj h2
      rw [← henv] at hr
      rw [blogsToResponses_ok_nil db _ ys hm] at hr
      simp at hr
  · rw [get_user_by_id] at h
    cases hu : db.getUser id with
    | none => rw [hu] at h; exact Except.noConfusion h
    | some user =>
      rw [hu] at h
      injection h with h2
      obtain ⟨hst, henv⟩ := Prod.mk.inj h2
      rw [← henv]
      exact ⟨rfl, rfl⟩
  · exact absurd h (by simp [create_blog])

/-- C7 witness: the concrete sample profile response carries following=15 and
follower=80, and so does the creator response the listing loop builds for a
concrete user. -/
theorem embedded_user_counts_are_placeholders_witness :
    (sampleProfileEnv.result.following = 15 ∧
      sampleProfileEnv.result.follower = 80) ∧
    ((loopCreatorResponse sampleBob).following = 15 ∧
      (loopCreatorResponse sampleBob).follower = 80) := by
  exact ⟨(embedded_user_counts_are_placeholders sampleDB).2.1 "user_alice"
      sampleBob 200 sampleProfileEnv rfl,
    (embedded_user_counts_are_placeholders sampleDB).2.2.2 sampleBob⟩

/-- C4: the claim says a listing computes offset `(page-1)*limit` into the
`created_at`-descending ordering and returns at most `limit` blogs with
consecutive pages disjoint.  The query itself works that way in the source,
but the response construction does not: for every selected row,
`BlogResponse(category=CategoryResponse(...))` is invalid for the declared
`category: CategoryEnum` field and raises an uncaught pydantic
`ValidationError`.  So a successful listing is necessarily empty, and any
page whose selected window starts with a row whose creator and category
resolve answers the bare HTTP 500 instead of the claimed rows. -/
theorem get_blogs_no_nonempty_page (limit page : Nat) (db : DB) (u : User) :
    (∀ st env, get_blogs limit page db u = .ok (st, env) → env.result = []) ∧
    (∀ b bs, ((sortedBlogs db).drop ((page - 1) * limit)).take limit = b :: bs →
      ∀ cu cc, db.getUser b.creator_id = some cu →
        db.getCategory b.category_id = some cc →
        get_blogs limit page db u =
          .error (.uncaught (.validationError blogResponseValidationMsg))) := by
  constructor
  · intro st env h
    simp only [get_blogs] at h
    cases hm : blogsToResponses db
        (((sortedBlogs db).drop ((page - 1) * limit)).take limit) with
    | error e => rw [hm] at h; exact Except.noConfusion h
    | ok ys =>
      rw [hm] at h
      injection h with h2
      obtain ⟨hst, henv⟩ := Prod.mk.inj h2
      rw [← henv]
      exact blogsToResponses_ok_nil db _ ys hm
  · intro b bs hwin cu cc hcu hcc
    have hb : blogToResponse db b =
        .error (.uncaught (.validationError blogResponseValidationMsg)) := by
      simp [blogToResponse, hcu, hcc]
    simp only [get_blogs]
    rw [hwin]
    simp [blogsToResponses, hb]

/-- C4 witness: on the sample store, page 1 with limit 2 selects a non-empty
window whose first row has resolvable references, so the listing answers the
uncaught `ValidationError` — and a page past the end of the table succeeds
with the empty result. -/
theorem get_blogs_no_nonempty_page_witness :
    get_blogs 2 1 sampleDB sampleAlice =
      .error (.uncaught (.validationError blogResponseValidationMsg)) ∧
    (BlogListEnvelope.mk true "Lấy thành công 0 bài blog." []).result = [] := by
  constructor
  · exact (get_blogs_no_nonempty_page 2 1 sampleDB sampleAlice).2 sampleBlog3
      [sampleBlog2] (by decide) sampleBob sampleCat2 (by decide) (by decide)
  · exact (get_blogs_no_nonempty_page 2 5 sampleDB sampleAlice).1 200
      ⟨true, "Lấy thành công 0 bài blog.", []⟩ rfl
